import Mathlib

/-!
Verification of the TaskPublisher pipeline (`src/app.py`).

The handler `handle_task` (a FastAPI endpoint) is embedded as a pure
function from a configuration, an environment of external-service
responses, and a request, to a `RunResult`: the ordered trace of side
effects it performed together with its outcome (success body, an
`HTTPException`, or an unhandled Python exception).  External calls
(the LLM, the GitHub REST API, the git subprocesses, the callback POST)
are modelled by recording the call in the trace and reading the
response from the environment.
-/

namespace TaskPublisher

/-- An HTTP response as seen by the `requests` library: status code and body text. -/
structure HttpResp where
  status_code : Nat
  text : String
deriving DecidableEq

/-- Pydantic model `Attachment` (src/app.py lines 20-22). -/
structure Attachment where
  name : String
  url : String
deriving DecidableEq

/-- Pydantic model `TaskRequest` (src/app.py lines 24-33). -/
structure TaskRequest where
  email : String
  secret : String
  task : String
  round : Int
  nonce : String
  brief : String
  checks : List String
  evaluation_url : String
  attachments : List Attachment
deriving DecidableEq

/-- The environment variables read at startup (src/app.py lines 12-15). -/
structure Config where
  github_token : String
  github_user : String
  student_secret : String
deriving DecidableEq

/-- The JSON body posted to the evaluation callback (src/app.py lines 131-139). -/
structure NotifyData where
  email : String
  task : String
  round : Int
  nonce : String
  repo_url : String
  commit_sha : String
  pages_url : String
deriving DecidableEq

/-- Responses of the external world consumed by one run of the handler.
`addExit`, `commitExit`, `pushExit` and `pushErr` are the results of the
corresponding `subprocess.run` invocations; the source never reads them. -/
structure Env where
  llm : String
  createRepo : HttpResp
  addExit : Nat
  commitExit : Nat
  pushExit : Nat
  pushErr : String
  pages : HttpResp
  revParse : String
  notify : HttpResp
deriving DecidableEq

/-- One observable side effect of the handler, in the order performed. -/
inductive Effect where
  | mkdir (path : String)
  | writeBytes (path : String) (content : List Nat)
  | writeText (path : String) (content : String)
  | git (args : List String)
  | httpPost (url : String)
  | llmCall (prompt : String)
  | gitRevParse
  | notifyPost (url : String) (data : NotifyData)
deriving DecidableEq

/-- Outcome of a run: the returned JSON body, a raised `HTTPException`,
or an unhandled Python exception (which FastAPI turns into a bare 500). -/
inductive Outcome where
  | ok (status : String) (pages_url : String)
  | httpError (code : Nat) (detail : String)
  | pyError (msg : String)
deriving DecidableEq

/-- The trace of side effects of a run together with its outcome. -/
structure RunResult where
  trace : List Effect
  outcome : Outcome
deriving DecidableEq

/-! ### String helpers -/

/-- `hasPre p l` : `p` is a leading segment of `l`. -/
def hasPre : List Char → List Char → Bool
  | [], _ => true
  | _ :: _, [] => false
  | a :: as, b :: bs => a = b && hasPre as bs

/-- `containsL n l` : `n` occurs as a contiguous segment of `l`. -/
def containsL (n : List Char) : List Char → Bool
  | [] => hasPre n []
  | c :: cs => hasPre n (c :: cs) || containsL n cs

/-- Python's `needle in hay` substring test. -/
def strContains (hay needle : String) : Bool :=
  containsL needle.toList hay.toList

/-- Python's `s.startswith(p)`. -/
def startsWithD (s p : String) : Bool :=
  hasPre p.toList s.toList

/-- Split a character list at every occurrence of `sep`. -/
def splitChL (sep : Char) : List Char → List (List Char)
  | [] => [[]]
  | c :: cs =>
    if c = sep then [] :: splitChL sep cs
    else
      match splitChL sep cs with
      | [] => [[c]]
      | h :: t => (c :: h) :: t

/-- Python's `s.split(sep)` for a one-character separator. -/
def splitCh (sep : Char) (s : String) : List String :=
  (splitChL sep s.toList).map fun cs => String.mk cs

/-- Whitespace characters removed by Python's `str.strip()`. -/
def isSpaceCh (c : Char) : Bool :=
  c = ' ' || c = '\t' || c = '\n' || c = '\r'

/-- Python's `s.strip()` (src/app.py line 127). -/
def pyStrip (s : String) : String :=
  String.mk (((s.toList.dropWhile isSpaceCh).reverse.dropWhile isSpaceCh).reverse)

/-- Python's `s.lower()` (src/app.py line 124). -/
def lowerStr (s : String) : String :=
  String.mk (s.toList.map Char.toLower)

/-- Concatenation of a list of strings with a separator between elements:
Python's `sep.join(xs)` (src/app.py line 86). -/
def joinWith (sep : String) : List String → String
  | [] => ""
  | [x] => x
  | x :: y :: t => x ++ sep ++ joinWith sep (y :: t)

/-- The portion of a list after its first `,`, or `none` when there is no
comma: `url.split(",", 1)[1]`, with `none` standing for the `IndexError`. -/
def afterCommaL : List Char → Option (List Char)
  | [] => none
  | c :: cs => if c = ',' then some cs else afterCommaL cs

/-- The portion of a string after its first comma (src/app.py line 76). -/
def afterFirstComma (s : String) : Option String :=
  (afterCommaL s.toList).map fun cs => String.mk cs

/-! ### Base64 decoding (`base64.b64decode`, default non-validating mode) -/

/-- Value of a character of the standard base64 alphabet. -/
def b64Val (c : Char) : Option Nat :=
  if 'A' ≤ c ∧ c ≤ 'Z' then some (c.toNat - 65)
  else if 'a' ≤ c ∧ c ≤ 'z' then some (c.toNat - 97 + 26)
  else if '0' ≤ c ∧ c ≤ '9' then some (c.toNat - 48 + 52)
  else if c = '+' then some 62
  else if c = '/' then some 63
  else none

/-- `binascii.a2b_base64` in non-strict mode, as CPython implements it:
a character-by-character loop over the quad position `q` (0-3) and the
pending bits `left`.  Characters outside the alphabet are skipped; a `=`
before quad position 2 is ignored; from quad position 2 on, padding
completes the quantum once `q` plus the running pad count reaches 4, and
everything after it is ignored; an input ending mid-quad is an error
(`q = 1`: data characters one more than a multiple of 4, otherwise
incorrect padding). -/
def a2bBase64 : List Char → Nat → Nat → Nat → Except String (List Nat)
  | [], 0, _, _ => Except.ok []
  | [], 1, _, _ =>
    Except.error "binascii.Error: Invalid base64-encoded string: number of data characters cannot be 1 more than a multiple of 4"
  | [], _, _, _ => Except.error "binascii.Error: Incorrect padding"
  | c :: rest, q, left, pads =>
    if c = '=' then
      if 2 ≤ q then
        if 4 ≤ q + (pads + 1) then Except.ok []
        else a2bBase64 rest q left (pads + 1)
      else a2bBase64 rest q left pads
    else
      match b64Val c with
      | none => a2bBase64 rest q left pads
      | some v =>
        match q with
        | 0 => a2bBase64 rest 1 v 0
        | 1 => (a2bBase64 rest 2 (v % 16) 0).map fun t => (left * 4 + v / 16) :: t
        | 2 => (a2bBase64 rest 3 (v % 4) 0).map fun t => (left * 16 + v / 4) :: t
        | _ => (a2bBase64 rest 0 0 0).map fun t => (left * 64 + v) :: t

/-- `base64.b64decode(s)` on a `str` argument, default (lenient) mode: the
argument is first ASCII-encoded (`ValueError` on any non-ASCII character),
then decoded by the lenient `binascii.a2b_base64`. -/
def b64decode (s : String) : Except String (List Nat) :=
  if s.toList.any fun c => 128 ≤ c.toNat then
    Except.error "ValueError: string argument should contain only ASCII characters"
  else a2bBase64 s.toList 0 0 0

/-- `s` ends with `p`. -/
def endsWithD (s p : String) : Bool :=
  hasPre p.toList.reverse s.toList.reverse

/-- `os.path.join(a, b)` on a POSIX system (src/app.py line 77): an
absolute second component discards the first. -/
def osPathJoin (a b : String) : String :=
  if startsWithD b "/" then b
  else if a = "" || endsWithD a "/" then a ++ b
  else a ++ "/" ++ b

/-! ### The pipeline -/

/-- The workspace directory for a task (src/app.py line 69). -/
def folderOf (t : TaskRequest) : String := "./repos/" ++ t.task

/-- Processing of one attachment (src/app.py lines 73-78): inline-data
URLs are decoded and written to `os.path.join(folder, name)`, other URL
forms do nothing; a missing comma (`IndexError`) or an undecodable
payload (`ValueError` / `binascii.Error`) is an unhandled exception. -/
def processAtt (folder : String) (a : Attachment) : Except String (List Effect) :=
  if startsWithD a.url "data:" then
    match afterFirstComma a.url with
    | none => Except.error "IndexError: list index out of range"
    | some payload =>
      match b64decode payload with
      | Except.error e => Except.error e
      | Except.ok bytes => Except.ok [Effect.writeBytes (osPathJoin folder a.name) bytes]
  else Except.ok []

/-- Processing of the attachment list, in order, stopping at the first
exception and keeping the effects performed up to it. -/
def processAtts (folder : String) : List Attachment → Except (List Effect × String) (List Effect)
  | [] => Except.ok []
  | a :: rest =>
    match processAtt folder a with
    | Except.error e => Except.error ([], e)
    | Except.ok es =>
      match processAtts folder rest with
      | Except.error (es2, e) => Except.error (es ++ es2, e)
      | Except.ok es2 => Except.ok (es ++ es2)

/-- The README content (src/app.py line 86). -/
def readmeText (task brief : String) (checks : List String) : String :=
  "# " ++ task ++ "\n\n" ++ brief ++ "\n\n## Checks\n" ++
    joinWith "\n" (checks.map fun c => "- " ++ c) ++ "\n\n## License\nMIT\n"

/-- The LICENSE content (src/app.py line 88). -/
def licenseText : String := "MIT License\n\nPermission is hereby granted..."

/-- The authenticated push remote (src/app.py line 111). -/
def pushUrl (cfg : Config) (task : String) : String :=
  "https://" ++ cfg.github_user ++ ":" ++ cfg.github_token ++ "@github.com/" ++
    cfg.github_user ++ "/" ++ task ++ ".git"

/-- The Pages API endpoint (src/app.py line 117). -/
def pagesApi (cfg : Config) (task : String) : String :=
  "https://api.github.com/repos/" ++ cfg.github_user ++ "/" ++ task ++ "/pages"

/-- The hosting URL (src/app.py line 128). -/
def pagesUrl (cfg : Config) (task : String) : String :=
  "https://" ++ cfg.github_user ++ ".github.io/" ++ task ++ "/"

/-- The repository URL placed in the callback body (src/app.py line 136). -/
def repoUrl (cfg : Config) (task : String) : String :=
  "https://github.com/" ++ cfg.github_user ++ "/" ++ task

/-- The callback body (src/app.py lines 131-139). -/
def notifyRecord (cfg : Config) (env : Env) (t : TaskRequest) : NotifyData :=
  { email := t.email
    task := t.task
    round := t.round
    nonce := t.nonce
    repo_url := repoUrl cfg t.task
    commit_sha := pyStrip env.revParse
    pages_url := pagesUrl cfg t.task }

/-- Effects performed from workspace creation through the create-repo POST
(src/app.py lines 70-102). -/
def baseTrace (cfg : Config) (env : Env) (t : TaskRequest) (es : List Effect) : List Effect :=
  (Effect.mkdir (folderOf t) :: es) ++
  [Effect.llmCall t.brief,
   Effect.writeText (folderOf t ++ "/index.html") env.llm,
   Effect.writeText (folderOf t ++ "/README.md") (readmeText t.task t.brief t.checks),
   Effect.writeText (folderOf t ++ "/LICENSE") licenseText,
   Effect.git ["init"],
   Effect.git ["config", "user.name", cfg.github_user],
   Effect.git ["config", "user.email", cfg.github_user ++ "@example.com"],
   Effect.git ["add", "."],
   Effect.git ["commit", "-m", "Round " ++ toString t.round ++ " commit"],
   Effect.httpPost "https://api.github.com/user/repos"]

/-- Effects performed through the push and the Pages POST (src/app.py lines 110-122). -/
def pushTrace (cfg : Config) (env : Env) (t : TaskRequest) (es : List Effect) : List Effect :=
  baseTrace cfg env t es ++
  [Effect.git ["remote", "add", "origin", pushUrl cfg t.task],
   Effect.git ["branch", "-M", "main"],
   Effect.git ["push", "-u", "origin", "main"],
   Effect.httpPost (pagesApi cfg t.task)]

/-- Effects of a run that reaches the callback POST (src/app.py lines 127-140). -/
def notifyTrace (cfg : Config) (env : Env) (t : TaskRequest) (es : List Effect) : List Effect :=
  pushTrace cfg env t es ++
  [Effect.gitRevParse, Effect.notifyPost t.evaluation_url (notifyRecord cfg env t)]

/-- The create-repo tolerance test (src/app.py line 105). -/
def repoTolerated (r : HttpResp) : Bool :=
  r.status_code == 422 && strContains r.text "name already exists"

/-- The Pages failure test (src/app.py line 124). -/
def pagesFatal (r : HttpResp) : Bool :=
  decide (300 ≤ r.status_code) && !(strContains (lowerStr r.text) "already enabled")

/-- The endpoint `handle_task` (src/app.py lines 62-147), as a function of
the configuration, the external-service responses, and the request. -/
def handle_task (cfg : Config) (env : Env) (t : TaskRequest) : RunResult :=
  if t.secret ≠ cfg.student_secret then
    ⟨[], Outcome.httpError 403 "Invalid secret"⟩
  else
    match processAtts (folderOf t) t.attachments with
    | Except.error (es, e) => ⟨Effect.mkdir (folderOf t) :: es, Outcome.pyError e⟩
    | Except.ok es =>
      let afterRepo : RunResult :=
        if pagesFatal env.pages then
          ⟨pushTrace cfg env t es,
           Outcome.httpError 500 ("GitHub Pages setup failed: " ++ env.pages.text)⟩
        else if env.notify.status_code ≠ 200 then
          ⟨notifyTrace cfg env t es, Outcome.httpError 500 "Evaluation notification failed"⟩
        else
          ⟨notifyTrace cfg env t es, Outcome.ok "done" (pagesUrl cfg t.task)⟩
      if repoTolerated env.createRepo then afterRepo
      else if 300 ≤ env.createRepo.status_code then
        ⟨baseTrace cfg env t es, Outcome.httpError 500 "GitHub repo creation failed"⟩
      else afterRepo

/-! ### BriefAugmenter (spec §4.3)

The repository variant implementing the `data.csv` summation is not among
the files under `src/`; `src/app.py` (the variant present) forwards the
brief to the generator unchanged (line 81).  The definitions below are
therefore modelled from the spec.  Floating-point numbers are modelled as
exact decimals, on which the spec's arithmetic (`10 + 20.5 = 30.5`) is
exact. -/

/-- Modelled from the spec: an exact decimal number `num / 10 ^ exp`,
standing in for the floating-point values of the missing BriefAugmenter. -/
structure DecNum where
  num : Int
  exp : Nat
deriving DecidableEq

/-- Modelled from the spec: addition of exact decimals (align exponents). -/
def decAdd (a b : DecNum) : DecNum :=
  if a.exp ≤ b.exp then ⟨a.num * (10 : Int) ^ (b.exp - a.exp) + b.num, b.exp⟩
  else ⟨a.num + b.num * (10 : Int) ^ (a.exp - b.exp), a.exp⟩

/-- Value of a decimal-digit character. -/
def digVal (c : Char) : Option Nat :=
  if '0' ≤ c ∧ c ≤ '9' then some (c.toNat - 48) else none

/-- Value of a nonempty all-digit character list. -/
def digitsVal : List Char → Option Nat
  | [] => none
  | cs => cs.foldlM (fun acc c => (digVal c).map fun d => acc * 10 + d) 0

/-- Modelled from the spec: parsing a field as a (decimal) floating-point
number; `none` models the exception raised on an unparseable value. -/
def parseDecNum (s : String) : Option DecNum :=
  let core := fun (sgn : Int) (body : List Char) =>
    match splitChL '.' body with
    | [ip] => (digitsVal ip).map fun n => (⟨sgn * n, 0⟩ : DecNum)
    | [ip, fp] =>
      match digitsVal ip, digitsVal fp with
      | some i, some f =>
        some (⟨sgn * ((i : Int) * (10 : Int) ^ fp.length + f), fp.length⟩ : DecNum)
      | _, _ => none
    | _ => none
  match s.toList with
  | '-' :: rest => core (-1) rest
  | cs => core 1 cs

/-- Drop trailing zero decimals: `3050 / 10 ^ 2` becomes `305 / 10 ^ 1`. -/
def stripZeros : Int → Nat → Int × Nat
  | n, 0 => (n, 0)
  | n, e + 1 => if n % 10 = 0 then stripZeros (n / 10) e else (n, e + 1)

/-- Modelled from the spec: rendering of the computed total the way Python
renders a float (`30.5`, and `30.0` for a whole number). -/
def decToString (d : DecNum) : String :=
  let p := stripZeros d.num d.exp
  let sgnStr := if p.1 < 0 then "-" else ""
  let m := p.1.natAbs
  if p.2 = 0 then sgnStr ++ toString m ++ ".0"
  else
    let q := (10 : Nat) ^ p.2
    let fpStr := toString (m % q)
    sgnStr ++ toString (m / q) ++ "." ++
      String.mk (List.replicate (p.2 - fpStr.length) '0') ++ fpStr

/-- Modelled from the spec: the BriefAugmenter's aggregate (§4.3).  The
first line of `data.csv` is the header; for every following row the field
in the `sales` column is parsed as a number and accumulated; a row too
short to have that field (or a missing `sales` column) contributes 0; an
unparseable value raises. -/
def sumSales (csv : String) : Except Unit DecNum :=
  match (splitCh '\n' csv).filter (fun l => l ≠ "") with
  | [] => Except.ok ⟨0, 0⟩
  | header :: rows =>
    let idx : Option Nat := (splitCh ',' header).findIdx? (fun c => c = "sales")
    rows.foldlM
      (fun acc row =>
        match idx.bind fun i => (splitCh ',' row).get? i with
        | none => Except.ok acc
        | some v =>
          match parseDecNum v with
          | none => Except.error ()
          | some d => Except.ok (decAdd acc d))
      ⟨0, 0⟩

/-- Modelled from the spec: the brief forwarded to the generator — when a
`data.csv` is present its sales total is appended as a sentence (§4.3). -/
def augmentBrief (brief : String) (csv : Option String) : Except Unit String :=
  match csv with
  | none => Except.ok brief
  | some content =>
    (sumSales content).map fun d =>
      brief ++ "\n\nThe data.csv sales column sums to " ++ decToString d ++ "."

/-! ### Helper lemmas and sample inputs -/

/-- A substring of `b` is a substring of `a ++ b`. -/
theorem containsL_append_left (n : List Char) (a b : List Char)
    (h : containsL n b = true) : containsL n (a ++ b) = true := by
  induction a with
  | nil => simpa using h
  | cons x xs ih =>
    show (hasPre n (x :: (xs ++ b)) || containsL n (xs ++ b)) = true
    rw [Bool.or_eq_true]
    exact Or.inr ih

/-- A substring of the appended suffix is a substring of the whole string. -/
theorem strContains_append_left (a b needle : String)
    (h : strContains b needle = true) : strContains (a ++ b) needle = true := by
  unfold strContains at h ⊢
  rw [show (a ++ b).toList = a.toList ++ b.toList from String.data_append a b]
  exact containsL_append_left _ _ _ h

/-- Appending a nonempty string changes a string. -/
theorem append_ne_self (a b : String) (h : b.length ≠ 0) : a ++ b ≠ a := by
  intro hab
  have hl := congrArg String.length hab
  rw [String.length_append] at hl
  omega

/-- A sample configuration. -/
def cfg0 : Config := ⟨"tok", "alice", "s3cret"⟩

/-- A sample request with the right secret and no attachments. -/
def req0 : TaskRequest :=
  ⟨"a@b.c", "s3cret", "demo1", 1, "n1", "Build X", ["a", "b"], "https://cb.example/", []⟩

/-- A sample environment in which every external call succeeds. -/
def env0 : Env :=
  ⟨"<html></html>", ⟨201, "created"⟩, 0, 0, 0, "", ⟨201, "ok"⟩, "abc123\n", ⟨200, "ok"⟩⟩

/-- `handle_task` beyond the create-repo decision: when the secret matches,
the attachments decode, and the create-repo response is tolerated (422 with
the known message) or below 300, the run is decided by the Pages response
and then the callback response. -/
theorem run_after_repo (cfg : Config) (env : Env) (t : TaskRequest) (es : List Effect)
    (hsec : t.secret = cfg.student_secret)
    (hatt : processAtts (folderOf t) t.attachments = Except.ok es)
    (hrepo : repoTolerated env.createRepo = true ∨ env.createRepo.status_code < 300) :
    handle_task cfg env t =
      if pagesFatal env.pages then
        ⟨pushTrace cfg env t es,
         Outcome.httpError 500 ("GitHub Pages setup failed: " ++ env.pages.text)⟩
      else if env.notify.status_code ≠ 200 then
        ⟨notifyTrace cfg env t es, Outcome.httpError 500 "Evaluation notification failed"⟩
      else
        ⟨notifyTrace cfg env t es, Outcome.ok "done" (pagesUrl cfg t.task)⟩ := by
  unfold handle_task
  rw [if_neg (by simp [hsec]), hatt]
  rcases hrepo with h | h
  · simp only [h, if_true]
  · by_cases ht : repoTolerated env.createRepo = true
    · simp only [ht, if_true]
    · simp only [ht, if_false, Bool.false_eq_true]
      rw [if_neg (by omega)]

/-! ### Claims -/

/-- C2: for every request whose secret differs from the configured secret,
the handler returns HTTP 403 ("Invalid secret") and performs no side
effect at all: the trace is empty, so there is no filesystem write and no
outbound call. -/
theorem c2_wrong_secret_no_side_effects (cfg : Config) (env : Env) (t : TaskRequest)
    (h : t.secret ≠ cfg.student_secret) :
    handle_task cfg env t = ⟨[], Outcome.httpError 403 "Invalid secret"⟩ := by
  unfold handle_task
  rw [if_pos h]

theorem c2_wrong_secret_no_side_effects_witness :
    ({ req0 with secret := "bad" } : TaskRequest).secret ≠ cfg0.student_secret ∧
    handle_task cfg0 env0 { req0 with secret := "bad" } =
      ⟨[], Outcome.httpError 403 "Invalid secret"⟩ :=
  ⟨by decide,
   c2_wrong_secret_no_side_effects cfg0 env0 { req0 with secret := "bad" } (by decide)⟩

/-- C5: in every run that reaches the callback POST (right secret, decoded
attachments, tolerated or successful repo creation, non-fatal Pages
response), a non-200 callback status makes the overall response a 500
whose detail names the notification stage — although the repo-creation
POST, the push, and the Pages POST are already in the trace. -/
theorem c5_notification_failure_fatal (cfg : Config) (env : Env) (t : TaskRequest)
    (es : List Effect)
    (hsec : t.secret = cfg.student_secret)
    (hatt : processAtts (folderOf t) t.attachments = Except.ok es)
    (hrepo : repoTolerated env.createRepo = true ∨ env.createRepo.status_code < 300)
    (hpages : pagesFatal env.pages = false)
    (hnot : env.notify.status_code ≠ 200) :
    handle_task cfg env t =
      ⟨notifyTrace cfg env t es, Outcome.httpError 500 "Evaluation notification failed"⟩ ∧
    Effect.httpPost "https://api.github.com/user/repos" ∈ (handle_task cfg env t).trace ∧
    Effect.git ["push", "-u", "origin", "main"] ∈ (handle_task cfg env t).trace ∧
    Effect.httpPost (pagesApi cfg t.task) ∈ (handle_task cfg env t).trace := by
  have h := run_after_repo cfg env t es hsec hatt hrepo
  rw [if_neg (by simp [hpages]), if_pos hnot] at h
  refine ⟨h, ?_, ?_, ?_⟩ <;> rw [h] <;> simp [notifyTrace, pushTrace, baseTrace]

theorem c5_notification_failure_fatal_witness :
    req0.secret = cfg0.student_secret ∧
    processAtts (folderOf req0) req0.attachments = Except.ok [] ∧
    pagesFatal env0.pages = false ∧
    (500 : Nat) ≠ 200 ∧
    handle_task cfg0 { env0 with notify := ⟨500, "boom"⟩ } req0 =
      ⟨notifyTrace cfg0 { env0 with notify := ⟨500, "boom"⟩ } req0 [],
       Outcome.httpError 500 "Evaluation notification failed"⟩ :=
  ⟨rfl, rfl, by decide, by decide,
   (c5_notification_failure_fatal cfg0 { env0 with notify := ⟨500, "boom"⟩ } req0 []
     rfl rfl (Or.inr (by decide)) (by decide) (by decide)).1⟩

/-- C9: every successful run returns the body `status = "done"` with
`pages_url = https://<account>.github.io/<task>/`, and the callback body in
the trace carries the stripped output of `git rev-parse HEAD` as
`commit_sha` together with that same hosting URL. -/
theorem c9_success_response (cfg : Config) (env : Env) (t : TaskRequest)
    (es : List Effect)
    (hsec : t.secret = cfg.student_secret)
    (hatt : processAtts (folderOf t) t.attachments = Except.ok es)
    (hrepo : repoTolerated env.createRepo = true ∨ env.createRepo.status_code < 300)
    (hpages : pagesFatal env.pages = false)
    (hnot : env.notify.status_code = 200) :
    handle_task cfg env t =
      ⟨notifyTrace cfg env t es,
       Outcome.ok "done" ("https://" ++ cfg.github_user ++ ".github.io/" ++ t.task ++ "/")⟩ ∧
    Effect.notifyPost t.evaluation_url (notifyRecord cfg env t) ∈ (handle_task cfg env t).trace ∧
    (notifyRecord cfg env t).commit_sha = pyStrip env.revParse ∧
    (notifyRecord cfg env t).pages_url =
      "https://" ++ cfg.github_user ++ ".github.io/" ++ t.task ++ "/" := by
  have h := run_after_repo cfg env t es hsec hatt hrepo
  rw [if_neg (by simp [hpages]), if_neg (by simp [hnot])] at h
  refine ⟨h, ?_, rfl, rfl⟩
  rw [h]
  simp [notifyTrace]

theorem c9_success_response_witness :
    req0.secret = cfg0.student_secret ∧
    env0.notify.status_code = 200 ∧
    handle_task cfg0 env0 req0 =
      ⟨notifyTrace cfg0 env0 req0 [],
       Outcome.ok "done" ("https://" ++ cfg0.github_user ++ ".github.io/" ++ req0.task ++ "/")⟩ ∧
    (notifyRecord cfg0 env0 req0).commit_sha = "abc123" :=
  ⟨rfl, rfl,
   (c9_success_response cfg0 env0 req0 [] rfl rfl (Or.inr (by decide)) (by decide) rfl).1,
   by decide⟩

/-- C10: on every successful run, the `pages_url` posted to the callback
and the `pages_url` of the HTTP response are the same string
`https://<account>.github.io/<task>/` — it is computed from the
configuration and the task name alone, and the run is unchanged by any
non-fatal Pages-endpoint response. -/
theorem c10_pages_url_consistent (cfg : Config) (env : Env) (t : TaskRequest)
    (es : List Effect)
    (hsec : t.secret = cfg.student_secret)
    (hatt : processAtts (folderOf t) t.attachments = Except.ok es)
    (hrepo : repoTolerated env.createRepo = true ∨ env.createRepo.status_code < 300)
    (hpages : pagesFatal env.pages = false)
    (hnot : env.notify.status_code = 200) :
    (∃ p, (handle_task cfg env t).outcome = Outcome.ok "done" p ∧
      (notifyRecord cfg env t).pages_url = p ∧
      Effect.notifyPost t.evaluation_url (notifyRecord cfg env t) ∈ (handle_task cfg env t).trace ∧
      p = "https://" ++ cfg.github_user ++ ".github.io/" ++ t.task ++ "/") ∧
    (∀ r : HttpResp, pagesFatal r = false →
      handle_task cfg { env with pages := r } t = handle_task cfg env t) := by
  have h := run_after_repo cfg env t es hsec hatt hrepo
  rw [if_neg (by simp [hpages]), if_neg (by simp [hnot])] at h
  constructor
  · refine ⟨pagesUrl cfg t.task, by rw [h], rfl, ?_, rfl⟩
    rw [h]
    simp [notifyTrace]
  · intro r hr
    have h2 := run_after_repo cfg { env with pages := r } t es hsec hatt hrepo
    rw [if_neg (by simp [hr]), if_neg (by simp [hnot])] at h2
    rw [h, h2]
    exact rfl

theorem c10_pages_url_consistent_witness :
    req0.secret = cfg0.student_secret ∧
    (∃ p, (handle_task cfg0 env0 req0).outcome = Outcome.ok "done" p ∧
      (notifyRecord cfg0 env0 req0).pages_url = p ∧
      Effect.notifyPost req0.evaluation_url (notifyRecord cfg0 env0 req0) ∈
        (handle_task cfg0 env0 req0).trace ∧
      p = "https://" ++ cfg0.github_user ++ ".github.io/" ++ req0.task ++ "/") ∧
    handle_task cfg0 { env0 with pages := ⟨204, "zzz"⟩ } req0 = handle_task cfg0 env0 req0 :=
  ⟨rfl,
   (c10_pages_url_consistent cfg0 env0 req0 [] rfl rfl (Or.inr (by decide)) (by decide) rfl).1,
   (c10_pages_url_consistent cfg0 env0 req0 [] rfl rfl (Or.inr (by decide)) (by decide) rfl).2
     ⟨204, "zzz"⟩ (by decide)⟩

/-- The Pages failure detail never coincides with the repo-creation
failure detail, whatever the response text. -/
theorem pages_detail_ne (x : String) :
    "GitHub Pages setup failed: " ++ x ≠ "GitHub repo creation failed" := by
  intro h
  have hl := congrArg String.length h
  rw [String.length_append,
    show ("GitHub Pages setup failed: " : String).length = 27 from rfl,
    show ("GitHub repo creation failed" : String).length = 27 from rfl] at hl
  have hx : x.length = 0 := by omega
  have hxd : x.data = [] := List.length_eq_zero.mp hx
  have hxe : x = "" := String.ext (hxd.trans rfl)
  rw [hxe] at h
  exact absurd h (by decide)

/-- C3 counterexample: a concrete run in which the push invocation exits
non-zero, yet the pipeline returns success and both the Pages call and the
callback POST still run — refuting that a non-zero push outcome is fatal. -/
theorem c3_push_failure_counterexample :
    ({ env0 with pushExit := 1, pushErr := "error: failed to push" } : Env).pushExit ≠ 0 ∧
    (handle_task cfg0 { env0 with pushExit := 1, pushErr := "error: failed to push" } req0).outcome =
      Outcome.ok "done" "https://alice.github.io/demo1/" ∧
    Effect.httpPost (pagesApi cfg0 req0.task) ∈
      (handle_task cfg0 { env0 with pushExit := 1, pushErr := "error: failed to push" } req0).trace ∧
    Effect.notifyPost req0.evaluation_url
        (notifyRecord cfg0 { env0 with pushExit := 1, pushErr := "error: failed to push" } req0) ∈
      (handle_task cfg0 { env0 with pushExit := 1, pushErr := "error: failed to push" } req0).trace :=
  ⟨by decide, by decide, by decide, by decide⟩

/-- C3 (amended): the push invocation's exit status and diagnostics are
never examined — the run result is identical whatever they are, and a run
that reaches the push step proceeds to the Pages call regardless. -/
theorem c3_push_exit_ignored (cfg : Config) (env : Env) (t : TaskRequest) (n : Nat) (s : String) :
    handle_task cfg { env with pushExit := n, pushErr := s } t = handle_task cfg env t ∧
    (∀ es, t.secret = cfg.student_secret →
      processAtts (folderOf t) t.attachments = Except.ok es →
      (repoTolerated env.createRepo = true ∨ env.createRepo.status_code < 300) →
      Effect.git ["push", "-u", "origin", "main"] ∈ (handle_task cfg env t).trace ∧
      Effect.httpPost (pagesApi cfg t.task) ∈ (handle_task cfg env t).trace) := by
  constructor
  · exact rfl
  · intro es hsec hatt hrepo
    have h := run_after_repo cfg env t es hsec hatt hrepo
    by_cases hp : pagesFatal env.pages = true
    · rw [if_pos hp] at h
      exact ⟨by rw [h]; simp [pushTrace, baseTrace], by rw [h]; simp [pushTrace, baseTrace]⟩
    · rw [if_neg hp] at h
      by_cases hn : env.notify.status_code ≠ 200
      · rw [if_pos hn] at h
        exact ⟨by rw [h]; simp [notifyTrace, pushTrace, baseTrace],
               by rw [h]; simp [notifyTrace, pushTrace, baseTrace]⟩
      · rw [if_neg hn] at h
        exact ⟨by rw [h]; simp [notifyTrace, pushTrace, baseTrace],
               by rw [h]; simp [notifyTrace, pushTrace, baseTrace]⟩

theorem c3_push_exit_ignored_witness :
    handle_task cfg0 { env0 with pushExit := 1, pushErr := "e" } req0 =
      handle_task cfg0 env0 req0 ∧
    Effect.git ["push", "-u", "origin", "main"] ∈ (handle_task cfg0 env0 req0).trace :=
  ⟨(c3_push_exit_ignored cfg0 env0 req0 1 "e").1,
   ((c3_push_exit_ignored cfg0 env0 req0 1 "e").2 [] rfl rfl (Or.inr (by decide))).1⟩

/-- C4 counterexample: a create-repo response with status 101 is neither a
2xx/3xx nor the tolerated 422 signature, yet the pipeline proceeds and
returns success instead of aborting with the repo-creation failure. -/
theorem c4_informational_status_counterexample :
    ¬ (200 ≤ ({ env0 with createRepo := ⟨101, "switching"⟩ } : Env).createRepo.status_code ∧
       ({ env0 with createRepo := ⟨101, "switching"⟩ } : Env).createRepo.status_code < 400) ∧
    repoTolerated ({ env0 with createRepo := ⟨101, "switching"⟩ } : Env).createRepo = false ∧
    (handle_task cfg0 { env0 with createRepo := ⟨101, "switching"⟩ } req0).outcome =
      Outcome.ok "done" "https://alice.github.io/demo1/" :=
  ⟨by decide, by decide, by decide⟩

/-- C4 (amended): a 422 create-repo response with a "name already exists"
body, like any response with status below 300, is success-equivalent: the
pipeline proceeds to the push step, never produces the repo-creation
failure, and completes through notification when the remaining steps
succeed; a response with status 300 or above lacking that signature aborts
with HTTP 500 "GitHub repo creation failed". -/
theorem c4_repo_creation_routing (cfg : Config) (env : Env) (t : TaskRequest) (es : List Effect)
    (hsec : t.secret = cfg.student_secret)
    (hatt : processAtts (folderOf t) t.attachments = Except.ok es) :
    (repoTolerated env.createRepo = true ∨ env.createRepo.status_code < 300 →
      Effect.git ["push", "-u", "origin", "main"] ∈ (handle_task cfg env t).trace ∧
      (handle_task cfg env t).outcome ≠ Outcome.httpError 500 "GitHub repo creation failed" ∧
      (pagesFatal env.pages = false → env.notify.status_code = 200 →
        handle_task cfg env t =
          ⟨notifyTrace cfg env t es, Outcome.ok "done" (pagesUrl cfg t.task)⟩)) ∧
    (repoTolerated env.createRepo = false → 300 ≤ env.createRepo.status_code →
      handle_task cfg env t =
        ⟨baseTrace cfg env t es, Outcome.httpError 500 "GitHub repo creation failed"⟩) := by
  constructor
  · intro hrepo
    have h := run_after_repo cfg env t es hsec hatt hrepo
    refine ⟨?_, ?_, ?_⟩
    · by_cases hp : pagesFatal env.pages = true
      · rw [if_pos hp] at h
        rw [h]; simp [pushTrace, baseTrace]
      · rw [if_neg hp] at h
        by_cases hn : env.notify.status_code ≠ 200
        · rw [if_pos hn] at h
          rw [h]; simp [notifyTrace, pushTrace, baseTrace]
        · rw [if_neg hn] at h
          rw [h]; simp [notifyTrace, pushTrace, baseTrace]
    · by_cases hp : pagesFatal env.pages = true
      · rw [if_pos hp] at h
        rw [h]
        intro hc
        simp only [Outcome.httpError.injEq] at hc
        exact pages_detail_ne env.pages.text hc.2
      · rw [if_neg hp] at h
        by_cases hn : env.notify.status_code ≠ 200
        · rw [if_pos hn] at h
          rw [h]
          simp
        · rw [if_neg hn] at h
          rw [h]
          simp
    · intro hpages hnot
      rw [if_neg (by simp [hpages]), if_neg (by simp [hnot])] at h
      exact h
  · intro ht hge
    unfold handle_task
    rw [if_neg (by simp [hsec]), hatt]
    simp only [ht, Bool.false_eq_true, if_false]
    rw [if_pos hge]

theorem c4_repo_creation_routing_witness :
    req0.secret = cfg0.student_secret ∧
    repoTolerated ({ env0 with createRepo := ⟨422, "name already exists on this account"⟩ } :
      Env).createRepo = true ∧
    handle_task cfg0 { env0 with createRepo := ⟨422, "name already exists on this account"⟩ } req0 =
      ⟨notifyTrace cfg0 { env0 with createRepo := ⟨422, "name already exists on this account"⟩ }
        req0 [],
       Outcome.ok "done" (pagesUrl cfg0 req0.task)⟩ ∧
    handle_task cfg0 { env0 with createRepo := ⟨403, "forbidden"⟩ } req0 =
      ⟨baseTrace cfg0 { env0 with createRepo := ⟨403, "forbidden"⟩ } req0 [],
       Outcome.httpError 500 "GitHub repo creation failed"⟩ := by
  refine ⟨rfl, by decide, ?_, ?_⟩
  · exact ((c4_repo_creation_routing cfg0
      { env0 with createRepo := ⟨422, "name already exists on this account"⟩ } req0 []
      rfl rfl).1 (Or.inl (by decide))).2.2 (by decide) rfl
  · exact (c4_repo_creation_routing cfg0 { env0 with createRepo := ⟨403, "forbidden"⟩ } req0 []
      rfl rfl).2 (by decide) (by decide)

/-- C7: the commit step's exit status is never examined: in a run where
`git commit` exits non-zero (nothing staged, nothing to commit), the
pipeline does not surface a NothingToCommit failure — it silently
continues to repo creation and returns success. -/
theorem c7_commit_failure_ignored :
    ({ env0 with commitExit := 1 } : Env).commitExit = 1 ∧
    handle_task cfg0 { env0 with commitExit := 1 } req0 =
      ⟨notifyTrace cfg0 { env0 with commitExit := 1 } req0 [],
       Outcome.ok "done" "https://alice.github.io/demo1/"⟩ ∧
    Effect.httpPost "https://api.github.com/user/repos" ∈
      (handle_task cfg0 { env0 with commitExit := 1 } req0).trace :=
  ⟨rfl, by decide, by decide⟩

/-- A leading segment stays a leading segment after appending. -/
theorem hasPre_extend (n : List Char) : ∀ l b : List Char,
    hasPre n l = true → hasPre n (l ++ b) = true := by
  induction n with
  | nil => intro l b _; rfl
  | cons x xs ih =>
    intro l b h
    cases l with
    | nil => cases h
    | cons y ys =>
      simp only [hasPre, Bool.and_eq_true, decide_eq_true_eq] at h
      simp only [List.cons_append, hasPre, Bool.and_eq_true, decide_eq_true_eq]
      exact ⟨h.1, ih ys b h.2⟩

/-- A segment of `a` is a segment of `a ++ b`. -/
theorem containsL_append_right (n : List Char) : ∀ a b : List Char,
    containsL n a = true → containsL n (a ++ b) = true := by
  intro a
  induction a with
  | nil =>
    intro b h
    cases n with
    | nil =>
      cases b with
      | nil => rfl
      | cons c cs => rfl
    | cons x xs => cases h
  | cons y ys ih =>
    intro b h
    simp only [containsL, Bool.or_eq_true] at h
    simp only [List.cons_append, containsL, Bool.or_eq_true]
    cases h with
    | inl hp => exact Or.inl (by simpa using hasPre_extend n (y :: ys) b (by simpa using hp))
    | inr hc => exact Or.inr (ih b hc)

/-- A list is a leading segment of itself followed by anything. -/
theorem hasPre_append_self (a : List Char) : ∀ b : List Char, hasPre a (a ++ b) = true := by
  induction a with
  | nil => intro b; rfl
  | cons x xs ih =>
    intro b
    simp [List.cons_append, hasPre]
    exact ih b

/-- A list occurs at the front of itself followed by anything. -/
theorem containsL_self_append (n b : List Char) : containsL n (n ++ b) = true := by
  cases n with
  | nil =>
    cases b with
    | nil => rfl
    | cons c cs => rfl
  | cons x xs =>
    simp only [List.cons_append, containsL, Bool.or_eq_true]
    exact Or.inl (by simpa using hasPre_append_self (x :: xs) b)

/-- A string starts with itself inside `a ++ b`. -/
theorem strContains_self_append (a b : String) : strContains (a ++ b) a = true := by
  unfold strContains
  rw [show (a ++ b).toList = a.toList ++ b.toList from String.data_append a b]
  exact containsL_self_append _ _

/-- Every string contains itself. -/
theorem strContains_refl (s : String) : strContains s s = true := by
  unfold strContains
  have h := containsL_self_append s.toList []
  rwa [List.append_nil] at h

/-- A substring of the appended first part is a substring of the whole. -/
theorem strContains_append_right (a b needle : String)
    (h : strContains a needle = true) : strContains (a ++ b) needle = true := by
  unfold strContains at h ⊢
  rw [show (a ++ b).toList = a.toList ++ b.toList from String.data_append a b]
  exact containsL_append_right _ _ _ h

/-- Each `- <check>` line occurs inside the joined checks section. -/
theorem joinWith_contains_check (c : String) : ∀ cs : List String, c ∈ cs →
    strContains (joinWith "\n" (cs.map fun x => "- " ++ x)) ("- " ++ c) = true := by
  intro cs
  induction cs with
  | nil => intro h; cases h
  | cons x xs ih =>
    intro h
    cases h with
    | head =>
      cases xs with
      | nil => exact strContains_refl _
      | cons y t =>
        show strContains ("- " ++ c ++ "\n" ++ joinWith "\n" ((y :: t).map fun x => "- " ++ x))
          ("- " ++ c) = true
        rw [String.append_assoc]
        exact strContains_append_right _ _ _ (strContains_refl _)
    | tail _ hm =>
      cases xs with
      | nil => cases hm
      | cons y t =>
        show strContains ("- " ++ x ++ "\n" ++ joinWith "\n" ((y :: t).map fun z => "- " ++ z))
          ("- " ++ c) = true
        rw [String.append_assoc, String.append_assoc]
        exact strContains_append_left _ _ _ (strContains_append_left _ _ _ (ih hm))

/-- C6 counterexample: the attachment URL `data:` begins with the
inline-data prefix, yet no file is written — the run aborts with an
`IndexError` instead of writing a file, refuting the left-to-right
direction of the claimed equivalence. -/
theorem c6_dataurl_without_comma_counterexample :
    startsWithD "data:" "data:" = true ∧
    handle_task cfg0 env0 { req0 with attachments := [⟨"x", "data:"⟩] } =
      ⟨[Effect.mkdir "./repos/demo1"], Outcome.pyError "IndexError: list index out of range"⟩ :=
  ⟨by decide, by decide⟩

/-- C6 (amended): per attachment, a file is written iff the URL starts
with "data:", has a comma, and the ASCII payload after the first comma
decodes under Python's lenient base64; the file is then
`os.path.join(workspace, name)` — the bare name when it is absolute —
holding the decoded bytes (payload `SGVsbG8=` gives the bytes of
"Hello"); other URL forms are skipped without error; a data URL without a
comma (`IndexError`), with a non-ASCII payload (`ValueError`), or with a
payload whose data ends mid-quantum (`binascii.Error`) raises, aborting
the request.  The lenient decoder accepts excess, trailing, and leading
padding. -/
theorem c6_attachment_write_routing (folder : String) (a : Attachment) :
    (startsWithD a.url "data:" = false → processAtt folder a = Except.ok []) ∧
    (∀ payload bytes, startsWithD a.url "data:" = true →
      afterFirstComma a.url = some payload → b64decode payload = Except.ok bytes →
      processAtt folder a = Except.ok [Effect.writeBytes (osPathJoin folder a.name) bytes]) ∧
    (startsWithD a.url "data:" = true → afterFirstComma a.url = none →
      processAtt folder a = Except.error "IndexError: list index out of range") ∧
    (∀ payload e, startsWithD a.url "data:" = true → afterFirstComma a.url = some payload →
      b64decode payload = Except.error e → processAtt folder a = Except.error e) ∧
    processAtt folder ⟨"hello.txt", "data:text/plain;base64,SGVsbG8="⟩ =
      Except.ok [Effect.writeBytes (osPathJoin folder "hello.txt") [72, 101, 108, 108, 111]] ∧
    b64decode "YQ==XX" = Except.ok [97] ∧
    b64decode "YQ===" = Except.ok [97] ∧
    b64decode "=YWJj" = Except.ok [97, 98, 99] ∧
    b64decode "SGVsbG8=é" =
      Except.error "ValueError: string argument should contain only ASCII characters" ∧
    b64decode "YQ=" = Except.error "binascii.Error: Incorrect padding" := by
  refine ⟨?_, ?_, ?_, ?_, rfl, rfl, rfl, rfl, rfl, rfl⟩
  · intro h
    unfold processAtt
    rw [if_neg (by simp [h])]
  · intro p b h1 h2 h3
    unfold processAtt
    rw [if_pos h1]
    simp only [h2, h3]
  · intro h1 h2
    unfold processAtt
    rw [if_pos h1]
    simp only [h2]
  · intro p e h1 h2 h3
    unfold processAtt
    rw [if_pos h1]
    simp only [h2, h3]

theorem c6_attachment_write_routing_witness :
    startsWithD "http://example.com/a" "data:" = false ∧
    processAtt "./repos/demo1" ⟨"x", "http://example.com/a"⟩ = Except.ok [] ∧
    processAtt "./repos/demo1" ⟨"hello.txt", "data:text/plain;base64,SGVsbG8="⟩ =
      Except.ok [Effect.writeBytes "./repos/demo1/hello.txt" [72, 101, 108, 108, 111]] ∧
    processAtt "./repos/demo1" ⟨"/tmp/evil", "data:;base64,YQ=="⟩ =
      Except.ok [Effect.writeBytes "/tmp/evil" [97]] ∧
    processAtt "./repos/demo1" ⟨"x", "data:text/plain;base64,SGVsbG8=é"⟩ =
      Except.error "ValueError: string argument should contain only ASCII characters" :=
  ⟨by decide,
   (c6_attachment_write_routing "./repos/demo1" ⟨"x", "http://example.com/a"⟩).1 (by decide),
   ((c6_attachment_write_routing "./repos/demo1"
      ⟨"hello.txt", "data:text/plain;base64,SGVsbG8="⟩).2.1 "SGVsbG8="
      [72, 101, 108, 108, 111] (by decide) rfl rfl).trans rfl,
   ((c6_attachment_write_routing "./repos/demo1" ⟨"/tmp/evil", "data:;base64,YQ=="⟩).2.1
      "YQ==" [97] (by decide) rfl rfl).trans rfl,
   (c6_attachment_write_routing "./repos/demo1"
      ⟨"x", "data:text/plain;base64,SGVsbG8=é"⟩).2.2.2.1 "SGVsbG8=é"
      "ValueError: string argument should contain only ASCII characters" (by decide) rfl rfl⟩

/-- C8: the README is the in-order concatenation of a title line with the
task name, the brief, a Checks section bulleting each check in list order,
and the fixed license notice; it contains the brief and a `- <check>` line
for every check, and for checks `["a", "b"]` and brief `"Build X"` its
lines are the title, blank, the brief, blank, the Checks heading, `- a`,
`- b`, blank, the license heading, `MIT`, in that order. -/
theorem c8_readme_structure (task brief : String) (checks : List String) :
    readmeText task brief checks =
      "# " ++ task ++ "\n\n" ++ brief ++ "\n\n## Checks\n" ++
        joinWith "\n" (checks.map fun c => "- " ++ c) ++ "\n\n## License\nMIT\n" ∧
    strContains (readmeText task brief checks) brief = true ∧
    (∀ c, c ∈ checks → strContains (readmeText task brief checks) ("- " ++ c) = true) ∧
    splitCh '\n' (readmeText "T" "Build X" ["a", "b"]) =
      ["# T", "", "Build X", "", "## Checks", "- a", "- b", "", "## License", "MIT", ""] := by
  refine ⟨rfl, ?_, ?_, by decide⟩
  · unfold readmeText
    simp only [String.append_assoc]
    refine strContains_append_left _ _ _ ?_
    refine strContains_append_left _ _ _ ?_
    refine strContains_append_left _ _ _ ?_
    exact strContains_self_append _ _
  · intro c hc
    unfold readmeText
    simp only [String.append_assoc]
    refine strContains_append_left _ _ _ ?_
    refine strContains_append_left _ _ _ ?_
    refine strContains_append_left _ _ _ ?_
    refine strContains_append_left _ _ _ ?_
    refine strContains_append_left _ _ _ ?_
    exact strContains_append_right _ _ _ (joinWith_contains_check c checks hc)

theorem c8_readme_structure_witness :
    readmeText "T" "Build X" ["a", "b"] =
      "# T\n\nBuild X\n\n## Checks\n- a\n- b\n\n## License\nMIT\n" ∧
    strContains (readmeText "T" "Build X" ["a", "b"]) "Build X" = true ∧
    strContains (readmeText "T" "Build X" ["a", "b"]) "- b" = true :=
  ⟨by decide,
   (c8_readme_structure "T" "Build X" ["a", "b"]).2.1,
   (c8_readme_structure "T" "Build X" ["a", "b"]).2.2.1 "b" (by decide)⟩

/-- C1: Modelled from the spec — the BriefAugmenter variant is not among
the files under `src/`.  When a `data.csv` is present, the augmenter sums
the `sales` field of every row (raising on an unparseable value, a row
without the field contributing 0) and forwards the brief with a sentence
stating the total appended; for rows `10` and `20.5` the forwarded brief
contains the substring `30.5` and differs from the literal un-augmented
brief. -/
theorem c1_brief_augmenter (brief : String) :
    (∀ csv total, sumSales csv = Except.ok total →
      augmentBrief brief (some csv) =
        Except.ok (brief ++ "\n\nThe data.csv sales column sums to " ++
          decToString total ++ ".")) ∧
    sumSales "sales\n10\n20.5" = Except.ok ⟨305, 1⟩ ∧
    (∀ s, augmentBrief brief (some "sales\n10\n20.5") = Except.ok s →
      strContains s "30.5" = true ∧ s ≠ brief) ∧
    sumSales "sales\ngarbage" = Except.error () ∧
    sumSales "qty,sales\n7" = Except.ok ⟨0, 0⟩ := by
  refine ⟨?_, rfl, ?_, rfl, rfl⟩
  · intro csv total h
    unfold augmentBrief
    simp only [h, Except.map]
  · intro s hs
    have h1 : augmentBrief brief (some "sales\n10\n20.5") =
        Except.ok (brief ++ "\n\nThe data.csv sales column sums to " ++ "30.5" ++ ".") := rfl
    rw [h1] at hs
    injection hs with hs'
    rw [← hs']
    constructor
    · simp only [String.append_assoc]
      refine strContains_append_left _ _ _ ?_
      refine strContains_append_left _ _ _ ?_
      exact strContains_self_append _ _
    · simp only [String.append_assoc]
      exact append_ne_self brief _ (by decide)

theorem c1_brief_augmenter_witness :
    sumSales "sales\n10\n20.5" = Except.ok ⟨305, 1⟩ ∧
    augmentBrief "Build X" (some "sales\n10\n20.5") =
      Except.ok "Build X\n\nThe data.csv sales column sums to 30.5." ∧
    strContains "Build X\n\nThe data.csv sales column sums to 30.5." "30.5" = true ∧
    "Build X\n\nThe data.csv sales column sums to 30.5." ≠ "Build X" := by
  have h := (c1_brief_augmenter "Build X").2.2.1
    "Build X\n\nThe data.csv sales column sums to 30.5." rfl
  exact ⟨rfl, rfl, h.1, h.2⟩

end TaskPublisher
